import Mathlib

/-!
# asahi-reboot-switcher: the tray session state machine

A shallow embedding of `main.go`: the volume refresh (`loadVolumes`), the menu
set-up and the selection listener of `onReady`, the reboot transition
(`isMacOSActive`, `rebootToMacOS`) and the reboot orchestrator
(`requestReboot`).

Every function that talks to the outside (the `asahibless` volume directory,
the `dialog` confirmation gate, `os/exec`, the process environment, the tray)
is embedded as a pure function of a `World`, which fixes the answers of the
outside, and returns the list of `Event`s it performed, in order, next to its
result. A runtime panic is the result `none`.

Strings are Lean strings. Go `int` is the 64-bit machine integer of the
platform this program targets.
-/

namespace AsahiRebootSwitcher

/-! ## Data model -/

/-- A Go `error` value, kept as its message. `Option GoError` is the Go type
`error`, with `none` for `nil`. -/
abbrev GoError := String

/-- Modelled from the spec: the type `asahibless.Volume` is declared outside
`main.go`. It is kept as what `main.go` reads of it: the 1-based ordinal `Idx`,
the flag `Active`, and the label the method `ShortName()` returns. -/
structure Volume where
  Idx : Int
  Active : Bool
  ShortName : String
  deriving DecidableEq

/-- The two standard streams a command can inherit. -/
inductive StdStream where
  | osStdout
  | osStderr
  deriving DecidableEq

/-- An `exec.Cmd`: the program name and arguments given to `exec.Command`, and
the `Stdout` and `Stderr` fields (`none` is Go's `nil`). -/
structure Cmd where
  Name : String
  Args : List String
  Stdout : Option StdStream
  Stderr : Option StdStream
  deriving DecidableEq

/-- Modelled from the spec: the `dialog` package (the Confirmation Gate) is
not in `main.go`. A question is what the builder chain
`dialog.Question(format, args...).Title(t).OKButton(l)` has collected when
`Run()` is called; `OKButton` is `none` when the chain does not set it. -/
structure Question where
  Format : String
  Args : List String
  Title : String
  OKButton : Option String
  deriving DecidableEq

/-- The calls `main.go` makes to the outside, as they appear in a trace. -/
inductive Event where
  /-- the call `fmt.Println(line)` -/
  | stdout (line : String)
  /-- the call `fmt.Fprintln(os.Stderr, ...)`, the operands joined by blanks -/
  | stderr (line : String)
  /-- the call `asahibless.ListVolumes()` -/
  | listVolumes
  /-- the call `asahibless.SetBoot(idx)` -/
  | setBoot (idx : Int)
  /-- the call `asahibless.SetBootMacOS(next)` -/
  | setBootMacOS (next : Bool)
  /-- the call `Run()` of a dialog question, with the answer it returned -/
  | ask (q : Question) (answer : Bool)
  /-- the call `volMenuItemGroup.AddItem(title, "")` -/
  | addItem (title : String)
  /-- the call `volMenuItemGroup.Check(i)` -/
  | check (i : Int)
  /-- the call `cmd.Run()` of an external command -/
  | run (cmd : Cmd)
  /-- any other call to the tray library, by name and string arguments -/
  | tray (call : String) (args : List String)
  deriving DecidableEq

/-- The answers of everything outside `main.go` during one transition. Each
transition makes each of these calls at most once, except `os.Getenv`, which
reads an environment that does not change in between. -/
structure World where
  /-- the process environment; `none` for a variable that is not set -/
  Environ : String → Option String
  /-- the result of `cmd.Run()` -/
  Run : Cmd → Option GoError
  /-- the result of `asahibless.ListVolumes()` -/
  ListVolumes : List Volume × Option GoError
  /-- the outcome of `asahibless.SetBoot(idx)`; `main.go` drops it -/
  SetBoot : Int → Option GoError
  /-- the result of `asahibless.SetBootMacOS(next)` -/
  SetBootMacOS : Bool → Option GoError
  /-- the answer of the Confirmation Gate to a question -/
  Ask : Question → Bool

/-- The tray's radio group, as far as `main.go` determines it: the titles
added with `AddItem`, in order. Entry `i` of the menu is `items[i]`. -/
structure MenuItemRadioGroup where
  items : List String
  deriving DecidableEq

/-- The session state, `type SystrayContext struct`. `volMenuItemGroup` is a
pointer in the source: `none` is `nil`. -/
structure SystrayContext where
  volumes : List Volume
  volMenuItemGroup : Option MenuItemRadioGroup
  activeVolIdx : Int
  deriving DecidableEq

/-! ## Go primitives -/

/-- Two's-complement wrap-around of a 64-bit Go `int`. -/
def wrapInt (x : Int) : Int := (x + 2 ^ 63) % 2 ^ 64 - 2 ^ 63

/-- The value of `os.Getenv(key)`: the empty string when the variable is not set. -/
def osGetenv (w : World) (key : String) : String := (w.Environ key).getD ""

/-- Search for `substr` at every position of the text, left to right. -/
def stringsContainsAux (substr : List Char) : List Char → Bool
  | [] => substr.isEmpty
  | c :: rest => substr.isPrefixOf (c :: rest) || stringsContainsAux substr rest

/-- The value of `strings.Contains(s, substr)`. Go compares bytes; for text
that is valid UTF-8 that is the same as comparing characters. -/
def stringsContains (s substr : String) : Bool := stringsContainsAux substr.data s.data

/-- The value of `exec.Command(name, args...)`: no stream is attached yet. -/
def execCommand (name : String) (args : List String) : Cmd := ⟨name, args, none, none⟩

/-- The slice access `volumes[i]` for a Go `int` index: `none` is the runtime
panic "index out of range". -/
def indexVolumes (volumes : List Volume) (i : Int) : Option Volume :=
  if 0 ≤ i ∧ i < volumes.length then volumes.get? i.toNat else none

/-! ## The reboot orchestrator -/

/-- The function `requestReboot` (lines 94-113): the commands it ran, and the
error it returns. -/
def requestReboot (w : World) : List Event × Option GoError :=
  if osGetenv w "XDG_CURRENT_DESKTOP" = "KDE" then
    let cmd := execCommand "qdbus" ["org.kde.ksmserver", "/KSMServer", "logout", "1", "1", "3"]
    let cmd := { cmd with Stdout := some StdStream.osStdout }
    let cmd := { cmd with Stderr := some StdStream.osStderr }
    ([Event.run cmd], w.Run cmd)
  else if osGetenv w "XDG_CURRENT_DESKTOP" = "GNOME" then
    let cmd := execCommand "gnome-session-quit" ["--reboot"]
    let cmd := { cmd with Stdout := some StdStream.osStdout }
    let cmd := { cmd with Stderr := some StdStream.osStderr }
    ([Event.run cmd], w.Run cmd)
  else
    let cmd := execCommand "pkexec" ["reboot"]
    let cmd := { cmd with Stdout := some StdStream.osStdout }
    let cmd := { cmd with Stderr := some StdStream.osStderr }
    ([Event.run cmd], w.Run cmd)

/-! ## The tray session -/

/-- The loop of `loadVolumes` (lines 146-152): check the entry `v.Idx - 1` of
the first active volume and stop. -/
def checkFirstActive : List Volume → List Event
  | [] => []
  | v :: rest =>
    let i := wrapInt (v.Idx - 1)
    if v.Active then [Event.check i] else checkFirstActive rest

/-- The method `loadVolumes` (lines 139-154): the trace, the context after
the call, and the error returned. -/
def loadVolumes (w : World) (sc : SystrayContext) :
    List Event × SystrayContext × Option GoError :=
  let (volumes, err) := w.ListVolumes
  let sc := { sc with volumes := volumes }
  match sc.volMenuItemGroup with
  | none => ([Event.listVolumes], sc, none)
  | some _ => (Event.listVolumes :: checkFirstActive volumes, sc, err)

/-- The loop of `onReady` (lines 168-173) on the variable `activeIdx`: `i` is
the position of the first volume of the list. -/
def onReadyActiveIdx : List Volume → Int → Int → Int
  | [], _, activeIdx => activeIdx
  | v :: rest, i, activeIdx => onReadyActiveIdx rest (i + 1) (if v.Active then i else activeIdx)

/-- The set-up part of `onReady` (lines 157-196), up to the command loop: it
builds the menu, one radio entry per volume of `sc.volumes`, checks the active
one, and stores the group and `activeIdx` in the context. The listener of
lines 176-191 is started here and handles the selection events that follow,
see `selectionListener`. -/
def onReady (sc : SystrayContext) : List Event × SystrayContext :=
  let activeIdx := onReadyActiveIdx sc.volumes 0 0
  let volMenuItemGroup : MenuItemRadioGroup := ⟨sc.volumes.map Volume.ShortName⟩
  let trace :=
    [Event.tray "SetTemplateIcon" [],
     Event.tray "SetTooltip" ["Restart in macOS (tray icon)"],
     Event.tray "AddMenuItem" ["Restart in macOS...", ""],
     Event.tray "AddSeparator" [],
     Event.tray "AddMenuItem" ["Default startup disk:", ""],
     Event.tray "Disable" [],
     Event.tray "AddMenuItemRadioGroup" []]
    ++ sc.volumes.map (fun v => Event.addItem v.ShortName)
    ++ [Event.check activeIdx,
        Event.tray "AddSeparator" [],
        Event.tray "AddMenuItem" ["Quit", "Quit application"]]
  (trace, { sc with volMenuItemGroup := some volMenuItemGroup, activeVolIdx := activeIdx })

/-- The question of lines 179-182 about the volume with label `name`. -/
def changeQuestion (name : String) : Question :=
  ⟨"Change default startup disk to %s?", [name], "Confirm startup disk change", some "Change"⟩

/-- One iteration of the selection listener (lines 177-190) for the event
`volIdx` read from `ClickedCh`: the trace, and the context after the
iteration, or `none` when the iteration panics. In `volIdx + 1` no wrap-around
is possible, `volIdx` being below the length of a slice at that point. -/
def selectionListener (w : World) (sc : SystrayContext) (volIdx : Int) :
    List Event × Option SystrayContext :=
  if volIdx ≠ sc.activeVolIdx then
    match indexVolumes sc.volumes volIdx with
    | none => ([], none)
    | some v =>
      let q := changeQuestion v.ShortName
      let confirmed := w.Ask q
      if confirmed then
        let sc1 := { sc with activeVolIdx := volIdx }
        let (t, sc2, _) := loadVolumes w sc1
        ([Event.ask q confirmed, Event.setBoot (volIdx + 1)] ++ t, some sc2)
      else
        let (t, sc2, _) := loadVolumes w sc
        ([Event.ask q confirmed] ++ t, some sc2)
  else
    let (t, sc2, _) := loadVolumes w sc
    (t, some sc2)

/-- The selection listener on a sequence of events, each with the world it is
handled in: the loop `for volIdx := range ClickedCh`. A panic ends it. -/
def selectionListenerRun (sc : SystrayContext) :
    List (World × Int) → List Event × Option SystrayContext
  | [] => ([], some sc)
  | (w, volIdx) :: rest =>
    match selectionListener w sc volIdx with
    | (t, none) => (t, none)
    | (t, some sc1) =>
      let (t2, r) := selectionListenerRun sc1 rest
      (t ++ t2, r)

/-- The loop of `isMacOSActive` (lines 217-222). -/
def isMacOSActiveLoop : List Volume → Bool
  | [] => false
  | v :: rest =>
    if v.Active && stringsContains v.ShortName "Macintosh" then true
    else isMacOSActiveLoop rest

/-- The method `isMacOSActive` (lines 216-223). -/
def isMacOSActive (sc : SystrayContext) : Bool := isMacOSActiveLoop sc.volumes

/-- The block of lines 239-244 of `rebootToMacOS`: request the reboot and
report its failure. -/
def rebootBlock (w : World) : List Event :=
  let (t, err) := requestReboot w
  match err with
  | some e => t ++ [Event.stderr ("Failed to reboot to macOS: " ++ e)]
  | none => t

/-- The method `rebootToMacOS` (lines 225-245): its trace. It does not change
the context. -/
def rebootToMacOS (w : World) (sc : SystrayContext) : List Event :=
  if !isMacOSActive sc then
    let t := [Event.stdout "macOS is not active, setting next boot override...",
              Event.setBootMacOS true]
    match w.SetBootMacOS true with
    | some err => t ++ [Event.stderr err]
    | none => t ++ rebootBlock w
  else
    [Event.stdout "macOS is already active, rebooting..."] ++ rebootBlock w

/-- The session part of `main` (lines 85-91): a fresh context, the initial
load with its error report, then `systray.Run` calls `onReady`. The lines
before (identity check, delegation of command-line arguments, autostart
registration) end the process or reach line 85 without a context. -/
def main (w : World) : List Event × SystrayContext :=
  let sctx : SystrayContext := ⟨[], none, 0⟩
  let (t1, sctx, err) := loadVolumes w sctx
  let t2 := match err with
    | some e => [Event.stderr e]
    | none => []
  let (t3, sctx) := onReady sctx
  (t1 ++ t2 ++ t3, sctx)

/-! ## Observations on traces -/

/-- Whether an event is a call of `asahibless.SetBootMacOS`. -/
def Event.isSetBootMacOS : Event → Bool
  | Event.setBootMacOS _ => true
  | _ => false

/-- Whether an event is a call of `asahibless.SetBoot`. -/
def Event.isSetBoot : Event → Bool
  | Event.setBoot _ => true
  | _ => false

/-- Whether an event is a question put to the Confirmation Gate. -/
def Event.isAsk : Event → Bool
  | Event.ask _ _ => true
  | _ => false

/-- Whether an event is the launch of an external command. In this program
only `requestReboot` produces such events, one for each call of it. -/
def Event.isRun : Event → Bool
  | Event.run _ => true
  | _ => false

/-- Whether an event is a line written to standard error. -/
def Event.isStderr : Event → Bool
  | Event.stderr _ => true
  | _ => false

/-! ## Concrete sessions -/

/-- A Linux volume, the first of the directory, active. -/
def volFedora : Volume := ⟨1, true, "Fedora"⟩

/-- The macOS volume, the second of the directory, not active. -/
def volMacintosh : Volume := ⟨2, false, "Macintosh HD"⟩

/-- A world in which everything succeeds and every question is confirmed:
two volumes, the first active, no desktop session variable. -/
def worldOk : World where
  Environ := fun _ => none
  Run := fun _ => none
  ListVolumes := ([volFedora, volMacintosh], none)
  SetBoot := fun _ => none
  SetBootMacOS := fun _ => none
  Ask := fun _ => true

/-- The world `worldOk` with a Confirmation Gate that is always dismissed. -/
def worldDenied : World := { worldOk with Ask := fun _ => false }

/-- The world `worldOk` with a boot-default write that fails: the directory
goes on reporting the first volume as active. -/
def worldWriteFails : World := { worldOk with SetBoot := fun _ => some "exit status 1" }

/-- A world whose directory query fails: no volumes and an error. -/
def worldQueryFails : World := { worldOk with ListVolumes := ([], some "exit status 1") }

/-- A world whose directory query succeeds with the first volume only. -/
def worldOneVolume : World := { worldOk with ListVolumes := ([volFedora], none) }

/-- A world in which the boot-next override cannot be set. -/
def worldOverrideFails : World := { worldOk with SetBootMacOS := fun _ => some "exit status 1" }

/-- A session booted into macOS-named volume: the second volume is active. -/
def scMacActive : SystrayContext :=
  ⟨[⟨1, false, "Fedora"⟩, ⟨2, true, "Macintosh HD"⟩], some ⟨["Fedora", "Macintosh HD"]⟩, 1⟩

/-! ## Lemmas -/

theorem stringsContainsAux_iff (substr s : List Char) :
    stringsContainsAux substr s = true ↔ substr <:+: s := by
  induction s with
  | nil => simp [stringsContainsAux]
  | cons c rest ih => simp [stringsContainsAux, ih, List.infix_cons_iff]

theorem isMacOSActiveLoop_iff (vs : List Volume) :
    isMacOSActiveLoop vs = true ↔
      ∃ v ∈ vs, v.Active = true ∧ "Macintosh".data <:+: v.ShortName.data := by
  induction vs with
  | nil => simp [isMacOSActiveLoop]
  | cons v rest ih =>
    simp only [isMacOSActiveLoop, List.mem_cons, exists_eq_or_imp]
    rw [← ih]
    by_cases h : (v.Active && stringsContains v.ShortName "Macintosh") = true
    · simp only [h, if_true, true_iff]
      left
      simpa [stringsContains, stringsContainsAux_iff] using h
    · simp only [h, if_false]
      constructor
      · intro h2; exact Or.inr h2
      · rintro (h2 | h2)
        · exact absurd (by simpa [stringsContains, stringsContainsAux_iff] using h2) h
        · exact h2

theorem requestReboot_eq (w : World) :
    ∃ c, requestReboot w = ([Event.run c], w.Run c) := by
  unfold requestReboot
  split
  · exact ⟨_, rfl⟩
  · split
    · exact ⟨_, rfl⟩
    · exact ⟨_, rfl⟩

theorem rebootBlock_filter_run (w : World) :
    (rebootBlock w).filter Event.isRun = (requestReboot w).1
      ∧ (rebootBlock w).filter Event.isSetBootMacOS = [] := by
  obtain ⟨c, hc⟩ := requestReboot_eq w
  unfold rebootBlock
  rw [hc]
  cases w.Run c <;> simp [Event.isRun, Event.isSetBootMacOS]

theorem loadVolumes_activeVolIdx (w : World) (sc : SystrayContext) :
    (loadVolumes w sc).2.1.activeVolIdx = sc.activeVolIdx := by
  unfold loadVolumes
  cases sc.volMenuItemGroup <;> rfl

theorem checkFirstActive_filter (vs : List Volume) :
    (checkFirstActive vs).filter (fun e => e.isAsk || e.isSetBoot) = [] := by
  induction vs with
  | nil => rfl
  | cons v rest ih =>
    simp only [checkFirstActive]
    split
    · rfl
    · exact ih

theorem loadVolumes_filter (w : World) (sc : SystrayContext) :
    (loadVolumes w sc).1.filter (fun e => e.isAsk || e.isSetBoot) = [] := by
  unfold loadVolumes
  cases sc.volMenuItemGroup
  · rfl
  · simpa [Event.isAsk, Event.isSetBoot] using checkFirstActive_filter w.ListVolumes.1

theorem checkFirstActive_filter_stderr (vs : List Volume) :
    (checkFirstActive vs).filter Event.isStderr = [] := by
  induction vs with
  | nil => rfl
  | cons v rest ih =>
    simp only [checkFirstActive]
    split
    · rfl
    · exact ih

theorem loadVolumes_filter_stderr (w : World) (sc : SystrayContext) :
    (loadVolumes w sc).1.filter Event.isStderr = [] := by
  unfold loadVolumes
  cases sc.volMenuItemGroup
  · rfl
  · simpa [Event.isStderr] using checkFirstActive_filter_stderr w.ListVolumes.1

theorem loadVolumes_no_ask_setBoot (w : World) (sc : SystrayContext) (e : Event)
    (he : e ∈ (loadVolumes w sc).1) : e.isAsk = false ∧ e.isSetBoot = false := by
  have h := List.filter_eq_nil_iff.1 (loadVolumes_filter w sc) e he
  simpa using h

theorem selectionListener_same (w : World) (sc : SystrayContext) :
    selectionListener w sc sc.activeVolIdx
      = ((loadVolumes w sc).1, some (loadVolumes w sc).2.1) := by
  unfold selectionListener
  simp

theorem selectionListener_other (w : World) (sc : SystrayContext) (i : Int)
    (hne : i ≠ sc.activeVolIdx) :
    (indexVolumes sc.volumes i = none ∧ selectionListener w sc i = ([], none))
      ∨ (∃ v, indexVolumes sc.volumes i = some v ∧ w.Ask (changeQuestion v.ShortName) = true
          ∧ selectionListener w sc i
            = ([Event.ask (changeQuestion v.ShortName) true, Event.setBoot (i + 1)]
                  ++ (loadVolumes w { sc with activeVolIdx := i }).1,
                some (loadVolumes w { sc with activeVolIdx := i }).2.1))
      ∨ (∃ v, indexVolumes sc.volumes i = some v ∧ w.Ask (changeQuestion v.ShortName) = false
          ∧ selectionListener w sc i
            = ([Event.ask (changeQuestion v.ShortName) false] ++ (loadVolumes w sc).1,
                some (loadVolumes w sc).2.1)) := by
  unfold selectionListener
  simp only [ne_eq, hne, not_false_eq_true, if_true]
  cases hidx : indexVolumes sc.volumes i with
  | none => exact Or.inl ⟨rfl, rfl⟩
  | some v =>
    cases hask : w.Ask (changeQuestion v.ShortName) with
    | true => exact Or.inr (Or.inl ⟨v, rfl, hask, by simp [hask]⟩)
    | false => exact Or.inr (Or.inr ⟨v, rfl, hask, by simp [hask]⟩)

/-! ## The reboot transition -/

/-- C1: in every session state in which no volume is both Active and has a
ShortName containing "Macintosh", `rebootToMacOS` calls `SetBootMacOS` exactly
once, with `true`; that call comes before every command `requestReboot`
launches; when the call returns an error no command is launched at all, and
when it returns `nil` the commands launched are those of one `requestReboot`. -/
theorem rebootToMacOS_sets_override_first (w : World) (sc : SystrayContext)
    (h : ∀ v ∈ sc.volumes, ¬ (v.Active = true ∧ "Macintosh".data <:+: v.ShortName.data)) :
    (rebootToMacOS w sc).filter Event.isSetBootMacOS = [Event.setBootMacOS true]
      ∧ (∀ pre c post, rebootToMacOS w sc = pre ++ Event.run c :: post →
          Event.setBootMacOS true ∈ pre)
      ∧ (w.SetBootMacOS true ≠ none → (rebootToMacOS w sc).filter Event.isRun = [])
      ∧ (w.SetBootMacOS true = none →
          (rebootToMacOS w sc).filter Event.isRun = (requestReboot w).1) := by
  have hact : isMacOSActive sc = false := by
    cases hb : isMacOSActive sc
    · rfl
    · obtain ⟨v, hv, hv2⟩ := (isMacOSActiveLoop_iff sc.volumes).1 hb
      exact absurd hv2 (h v hv)
  have hblock := rebootBlock_filter_run w
  have hsplit : ∀ (rest pre post : List Event) (c : Cmd),
      Event.stdout "macOS is not active, setting next boot override..."
        :: Event.setBootMacOS true :: rest = pre ++ Event.run c :: post →
      Event.setBootMacOS true ∈ pre := by
    intro rest pre post c heq
    rcases pre with _ | ⟨a, _ | ⟨b, pre⟩⟩
    · simp at heq
    · simp at heq
    · simp only [List.cons_append, List.cons.injEq] at heq
      simp [← heq.2.1]
  unfold rebootToMacOS
  simp only [hact, Bool.not_false, if_true]
  cases hset : w.SetBootMacOS true with
  | none =>
    refine ⟨?_, ?_, ?_, ?_⟩
    · simp [List.filter_append, hblock.2, Event.isSetBootMacOS]
    · intro pre c post heq
      exact hsplit _ pre post c heq
    · intro hn; exact absurd rfl hn
    · intro _
      simp [List.filter_append, hblock.1, Event.isRun]
  | some err =>
    refine ⟨?_, ?_, ?_, ?_⟩
    · simp [Event.isSetBootMacOS]
    · intro pre c post heq
      exact hsplit _ pre post c heq
    · intro _; simp [Event.isRun]
    · intro hn; exact absurd hn (by simp)

/-- C1, at a concrete input: a session booted into Fedora in which the
override cannot be set. -/
theorem rebootToMacOS_sets_override_first_witness :
    (rebootToMacOS worldOverrideFails (main worldOk).2).filter Event.isSetBootMacOS
        = [Event.setBootMacOS true]
      ∧ (rebootToMacOS worldOverrideFails (main worldOk).2).filter Event.isRun = [] :=
  have h := rebootToMacOS_sets_override_first worldOverrideFails (main worldOk).2 (by decide)
  ⟨h.1, h.2.2.1 (by decide)⟩

/-- C2: `isMacOSActive` is true exactly when some volume is Active and has a
ShortName containing "Macintosh"; in every such session state the commands
`rebootToMacOS` launches are those of one `requestReboot`, which is one
command, and `SetBootMacOS` is not called. -/
theorem rebootToMacOS_active_reboots_directly (w : World) (sc : SystrayContext) :
    (isMacOSActive sc = true ↔
        ∃ v ∈ sc.volumes, v.Active = true ∧ "Macintosh".data <:+: v.ShortName.data)
      ∧ ((∃ v ∈ sc.volumes, v.Active = true ∧ "Macintosh".data <:+: v.ShortName.data) →
          (rebootToMacOS w sc).filter Event.isRun = (requestReboot w).1
            ∧ ((rebootToMacOS w sc).filter Event.isRun).length = 1
            ∧ (rebootToMacOS w sc).filter Event.isSetBootMacOS = []) := by
  refine ⟨isMacOSActiveLoop_iff sc.volumes, ?_⟩
  intro h
  have hact : isMacOSActive sc = true := (isMacOSActiveLoop_iff sc.volumes).2 h
  have hblock := rebootBlock_filter_run w
  obtain ⟨c, hc⟩ := requestReboot_eq w
  have hrun : (rebootToMacOS w sc).filter Event.isRun = (requestReboot w).1 := by
    unfold rebootToMacOS
    simp [hact, List.filter_append, hblock.1, Event.isRun]
  refine ⟨hrun, ?_, ?_⟩
  · rw [hrun, hc]; rfl
  · unfold rebootToMacOS
    simp [hact, List.filter_append, hblock.2, Event.isSetBootMacOS]

/-- C2, at a concrete input: a session booted into "Macintosh HD". -/
theorem rebootToMacOS_active_reboots_directly_witness :
    ((rebootToMacOS worldOk scMacActive).filter Event.isRun).length = 1
      ∧ (rebootToMacOS worldOk scMacActive).filter Event.isSetBootMacOS = [] :=
  have h := (rebootToMacOS_active_reboots_directly worldOk scMacActive).2 (by decide)
  ⟨h.2.1, h.2.2⟩

/-! ## The reboot orchestrator -/

/-- C3: for every value of `XDG_CURRENT_DESKTOP`, set or not, `requestReboot`
runs the command chosen by first match: `qdbus org.kde.ksmserver /KSMServer
logout 1 1 3` for exactly "KDE", else `gnome-session-quit --reboot` for exactly
"GNOME", else `pkexec reboot`; each with the standard streams of the process. -/
theorem requestReboot_command_by_session (w : World) :
    (requestReboot w).1 =
      [Event.run
        (if w.Environ "XDG_CURRENT_DESKTOP" = some "KDE" then
          ⟨"qdbus", ["org.kde.ksmserver", "/KSMServer", "logout", "1", "1", "3"],
            some StdStream.osStdout, some StdStream.osStderr⟩
        else if w.Environ "XDG_CURRENT_DESKTOP" = some "GNOME" then
          ⟨"gnome-session-quit", ["--reboot"], some StdStream.osStdout, some StdStream.osStderr⟩
        else
          ⟨"pkexec", ["reboot"], some StdStream.osStdout, some StdStream.osStderr⟩)] := by
  unfold requestReboot osGetenv execCommand
  cases henv : w.Environ "XDG_CURRENT_DESKTOP" with
  | none => simp
  | some d =>
    by_cases h1 : d = "KDE"
    · simp [h1]
    · by_cases h2 : d = "GNOME"
      · simp [h2]
      · simp [h1, h2]

/-- C4: for every session identifier and every outcome of the launched
command, `requestReboot` launches exactly one command and returns the result of
that command; the command is `pkexec` only when the session is neither "KDE"
nor "GNOME", so a failing session command is not followed by the fallback; and
`rebootToMacOS` launches at most one command. -/
theorem requestReboot_runs_one_command (w : World) :
    (∃ c, (requestReboot w).1 = [Event.run c] ∧ (requestReboot w).2 = w.Run c
        ∧ (c.Name = "pkexec" ↔
            ¬ (osGetenv w "XDG_CURRENT_DESKTOP" = "KDE"
                ∨ osGetenv w "XDG_CURRENT_DESKTOP" = "GNOME")))
      ∧ ∀ sc, ((rebootToMacOS w sc).filter Event.isRun).length ≤ 1 := by
  constructor
  · unfold requestReboot execCommand
    by_cases h1 : osGetenv w "XDG_CURRENT_DESKTOP" = "KDE"
    · exact ⟨⟨"qdbus", ["org.kde.ksmserver", "/KSMServer", "logout", "1", "1", "3"],
        some StdStream.osStdout, some StdStream.osStderr⟩,
        by simp [h1], by simp [h1], by simp [h1]⟩
    · by_cases h2 : osGetenv w "XDG_CURRENT_DESKTOP" = "GNOME"
      · exact ⟨⟨"gnome-session-quit", ["--reboot"],
          some StdStream.osStdout, some StdStream.osStderr⟩,
          by simp [h2], by simp [h2], by simp [h2]⟩
      · exact ⟨⟨"pkexec", ["reboot"], some StdStream.osStdout, some StdStream.osStderr⟩,
          by simp [h1, h2], by simp [h1, h2], by simp [h1, h2]⟩
  · intro sc
    have hblock := rebootBlock_filter_run w
    obtain ⟨c, hc⟩ := requestReboot_eq w
    unfold rebootToMacOS
    split
    · cases w.SetBootMacOS true with
      | none => simp [List.filter_append, hblock.1, hc, Event.isRun]
      | some err => simp [Event.isRun]
    · simp [List.filter_append, hblock.1, hc, Event.isRun]

/-! ## The selection transition -/

/-- C6: in every session state, for every selection event for an index `i`
other than the selected index on which the Confirmation Gate returns true, the
listener calls `SetBoot` exactly once, with `i + 1`, and ends the iteration
with the selected index equal to `i`. The world, and with it the outcome of the
write, is arbitrary. -/
theorem selection_confirmed_sets_boot (w : World) (sc : SystrayContext) (i : Int)
    (hne : i ≠ sc.activeVolIdx)
    (hgate : ∃ q, Event.ask q true ∈ (selectionListener w sc i).1) :
    (selectionListener w sc i).1.filter Event.isSetBoot = [Event.setBoot (i + 1)]
      ∧ ∃ sc1, (selectionListener w sc i).2 = some sc1 ∧ sc1.activeVolIdx = i := by
  obtain ⟨q, hq⟩ := hgate
  rcases selectionListener_other w sc i hne with ⟨_, h⟩ | ⟨v, _, _, h⟩ | ⟨v, _, _, h⟩
  · rw [h] at hq
    simp at hq
  · rw [h]
    refine ⟨?_, _, rfl, ?_⟩
    · have hnil : (loadVolumes w { sc with activeVolIdx := i }).1.filter Event.isSetBoot = [] := by
        apply List.filter_eq_nil_iff.2
        intro e he
        simp [(loadVolumes_no_ask_setBoot w _ e he).2]
      simp [List.filter_cons, hnil, Event.isSetBoot]
    · rw [loadVolumes_activeVolIdx]
  · rw [h] at hq
    simp only [List.cons_append, List.nil_append, List.mem_cons, Event.ask.injEq,
      Bool.true_eq_false, and_false, false_or] at hq
    have := (loadVolumes_no_ask_setBoot w sc _ hq).1
    simp [Event.isAsk] at this

/-- C6, at a concrete input: the second entry is selected and confirmed while
the boot-default write fails. -/
theorem selection_confirmed_sets_boot_witness :
    (selectionListener worldWriteFails (main worldOk).2 1).1.filter Event.isSetBoot
        = [Event.setBoot (1 + 1)]
      ∧ ∃ sc1, (selectionListener worldWriteFails (main worldOk).2 1).2 = some sc1
          ∧ sc1.activeVolIdx = 1 :=
  selection_confirmed_sets_boot worldWriteFails (main worldOk).2 1 (by decide)
    ⟨changeQuestion "Macintosh HD", by decide⟩

/-- C9: in every session state, a selection event for the selected index
makes no Confirmation Gate call and no `SetBoot` call, and the iteration ends
with the selected index unchanged. -/
theorem selection_same_index_noop (w : World) (sc : SystrayContext) :
    (selectionListener w sc sc.activeVolIdx).1.filter (fun e => e.isAsk || e.isSetBoot) = []
      ∧ ∃ sc1, (selectionListener w sc sc.activeVolIdx).2 = some sc1
          ∧ sc1.activeVolIdx = sc.activeVolIdx := by
  rw [selectionListener_same]
  exact ⟨loadVolumes_filter w sc, _, rfl, loadVolumes_activeVolIdx w sc⟩

/-- C10: in every session state, for every selection event for an index other
than the selected index on which the Confirmation Gate returns false, no
`SetBoot` call is made and the selected index after the refresh that follows is
the selected index before the event, whatever the directory reports. -/
theorem selection_denied_keeps_index (w : World) (sc : SystrayContext) (i : Int)
    (hne : i ≠ sc.activeVolIdx)
    (hgate : ∃ q, Event.ask q false ∈ (selectionListener w sc i).1) :
    (selectionListener w sc i).1.filter Event.isSetBoot = []
      ∧ ∃ sc1, (selectionListener w sc i).2 = some sc1
          ∧ sc1.activeVolIdx = sc.activeVolIdx := by
  obtain ⟨q, hq⟩ := hgate
  rcases selectionListener_other w sc i hne with ⟨_, h⟩ | ⟨v, _, _, h⟩ | ⟨v, _, _, h⟩
  · rw [h] at hq
    simp at hq
  · rw [h] at hq
    simp only [List.cons_append, List.nil_append, List.mem_cons, Event.ask.injEq,
      Bool.false_eq_true, and_false, false_or, reduceCtorEq] at hq
    have := (loadVolumes_no_ask_setBoot w _ _ hq).1
    simp [Event.isAsk] at this
  · rw [h]
    refine ⟨?_, _, rfl, loadVolumes_activeVolIdx w sc⟩
    have hnil : (loadVolumes w sc).1.filter Event.isSetBoot = [] := by
      apply List.filter_eq_nil_iff.2
      intro e he
      simp [(loadVolumes_no_ask_setBoot w _ e he).2]
    simp [List.filter_cons, hnil, Event.isSetBoot]

/-- C10, at a concrete input: the second entry is selected and the question
is dismissed, the directory unchanged. -/
theorem selection_denied_keeps_index_witness :
    (selectionListener worldDenied (main worldOk).2 1).1.filter Event.isSetBoot = []
      ∧ ∃ sc1, (selectionListener worldDenied (main worldOk).2 1).2 = some sc1
          ∧ sc1.activeVolIdx = (main worldOk).2.activeVolIdx :=
  selection_denied_keeps_index worldDenied (main worldOk).2 1 (by decide)
    ⟨changeQuestion "Macintosh HD", by decide⟩

/-! ## The refresh

The three statements below evaluate the code on concrete sessions. They start
from `(main worldOk).2`, the session after start-up with the volumes "Fedora"
(active) and "Macintosh HD": a menu of two entries and `activeVolIdx = 0`. -/

/-- C5: the refresh does not set `activeVolIdx`, in any world and state. At
the concrete session the entry 1 is selected and confirmed and the write fails: the refresh that follows reads a directory whose
active volume is at position 0 and checks the menu entry 0, and `activeVolIdx`
stays 1; a second selection of entry 1 is then taken for the selected one, with
no question and no write. -/
theorem refresh_leaves_activeVolIdx :
    (∀ (w : World) (sc : SystrayContext), (loadVolumes w sc).2.1.activeVolIdx = sc.activeVolIdx)
      ∧ (main worldOk).2.activeVolIdx = 0
      ∧ (selectionListener worldWriteFails (main worldOk).2 1).1
          = [Event.ask (changeQuestion "Macintosh HD") true, Event.setBoot 2,
              Event.listVolumes, Event.check 0]
      ∧ (selectionListener worldWriteFails (main worldOk).2 1).2
          = some ⟨[volFedora, volMacintosh], some ⟨["Fedora", "Macintosh HD"]⟩, 1⟩
      ∧ onReadyActiveIdx [volFedora, volMacintosh] 0 0 = 0
      ∧ (selectionListenerRun (main worldOk).2 [(worldWriteFails, 1), (worldWriteFails, 1)]).1
          = [Event.ask (changeQuestion "Macintosh HD") true, Event.setBoot 2,
              Event.listVolumes, Event.check 0, Event.listVolumes, Event.check 0] :=
  ⟨loadVolumes_activeVolIdx, by decide⟩

/-- C7: a selection event for a valid menu entry panics after a refresh that
returned fewer volumes than the menu has entries. The menu has two entries;
the event for entry 0 is followed by a refresh whose query fails (or returns
one volume), and the event for entry 1 then indexes `sc.volumes` out of range. -/
theorem selection_after_short_refresh_panics :
    (main worldOk).2.volMenuItemGroup = some ⟨["Fedora", "Macintosh HD"]⟩
      ∧ (selectionListener worldQueryFails (main worldOk).2 0).2
          = some ⟨[], some ⟨["Fedora", "Macintosh HD"]⟩, 0⟩
      ∧ (selectionListenerRun (main worldOk).2 [(worldQueryFails, 0), (worldOk, 1)]).2 = none
      ∧ (selectionListenerRun (main worldOk).2 [(worldOneVolume, 0), (worldOk, 1)]).2 = none := by
  decide

/-- C8: a failing directory query is not written out: in no world does the
start-up or an iteration of the selection listener write to standard error.
At start-up the menu group is `nil`, `loadVolumes` returns `nil` for a query
that failed and `main` writes nothing; in the refresh after a selection event
`loadVolumes` returns the error and the listener drops it. -/
theorem listVolumes_failure_not_reported :
    (∀ w : World, (main w).1.filter Event.isStderr = [])
      ∧ (∀ (w : World) (sc : SystrayContext) (volIdx : Int),
          (selectionListener w sc volIdx).1.filter Event.isStderr = [])
      ∧ worldQueryFails.ListVolumes.2 = some "exit status 1"
      ∧ (loadVolumes worldQueryFails ⟨[], none, 0⟩).2.2 = none
      ∧ (main worldQueryFails).1.filter Event.isStderr = []
      ∧ (loadVolumes worldQueryFails (main worldOk).2).2.2 = some "exit status 1"
      ∧ (selectionListener worldQueryFails (main worldOk).2 0).1.filter Event.isStderr = [] := by
  refine ⟨?_, ?_, by decide⟩
  · intro w
    simp [main, loadVolumes, onReady, List.filter_append, List.filter_map, Event.isStderr]
  · intro w sc volIdx
    by_cases hne : volIdx = sc.activeVolIdx
    · rw [hne, selectionListener_same]
      exact loadVolumes_filter_stderr w sc
    · rcases selectionListener_other w sc volIdx hne with ⟨_, h⟩ | ⟨v, _, _, h⟩ | ⟨v, _, _, h⟩
      · rw [h]; rfl
      · rw [h]
        simp [List.filter_cons, loadVolumes_filter_stderr, Event.isStderr]
      · rw [h]
        simp [List.filter_cons, loadVolumes_filter_stderr, Event.isStderr]

end AsahiRebootSwitcher
